import Mathlib

/-!
Verification of the order synchronization core of the tg-bot-kaspi repository.

The Python source is shallowly embedded: each remote HTTP call is modelled by
an `Except`-valued oracle supplied as an argument (`.error` models the call
raising), the SQLite store is a list of records threaded through the
operations, timestamps are epoch milliseconds (`Int`), monetary amounts are
integers, and PDF payloads are byte lists.  The `json.dumps` / `json.loads`
round trip used by the `Order.items` property is embedded as an executable
serializer and parser over `List Char`.
-/

namespace Kaspi

/-- Byte strings (waybill PDF payloads) modelled as lists of byte values. -/
abbrev Bytes := List Nat

/-- One line item as assembled by `OrderService._get_full_order_info`:
`{'name': ..., 'description': ..., 'quantity': ..., 'price': ..., 'total_price': ...}`. -/
structure LineItem where
  name : String
  description : String
  quantity : Int
  price : Int
  total_price : Int
  deriving DecidableEq

/-- Lower-case hexadecimal digit, as produced by Python's `json.dumps`. -/
def hexDigitChar (n : Nat) : Char :=
  if n < 10 then Char.ofNat (48 + n) else Char.ofNat (87 + n)

/-- How `json.dumps(..., ensure_ascii=False)` renders one character inside a
JSON string: short escapes for the two meta characters and the five named
control characters, `\u00XX` for the remaining control characters, and the
character itself otherwise. -/
def escChar (c : Char) : List Char :=
  if c = '"' then ['\\', '"']
  else if c = '\\' then ['\\', '\\']
  else if c = '\n' then ['\\', 'n']
  else if c = '\t' then ['\\', 't']
  else if c = '\r' then ['\\', 'r']
  else if c = Char.ofNat 8 then ['\\', 'b']
  else if c = Char.ofNat 12 then ['\\', 'f']
  else if c.toNat < 32 then
    ['\\', 'u', '0', '0', hexDigitChar (c.toNat / 16), hexDigitChar (c.toNat % 16)]
  else [c]

/-- Escape a character sequence, prepending it to `rest`. -/
def escapeList : List Char → List Char → List Char
  | [], rest => rest
  | c :: cs, rest => escChar c ++ escapeList cs rest

/-- A serialized JSON string (with both quotes), prepended to `rest`. -/
def strChars (s : String) (rest : List Char) : List Char :=
  '"' :: escapeList s.data ('"' :: rest)

/-- Decimal digits of `n` (most significant first) prepended to `acc`. -/
def natDigitsAux (n : Nat) (acc : List Char) : List Char :=
  if n < 10 then Char.ofNat (48 + n) :: acc
  else natDigitsAux (n / 10) (Char.ofNat (48 + n % 10) :: acc)
  termination_by n
  decreasing_by exact Nat.div_lt_self (by omega) (by omega)

/-- Decimal rendering of an integer (Python `repr`), prepended to `rest`. -/
def intChars (i : Int) (rest : List Char) : List Char :=
  if i < 0 then '-' :: natDigitsAux (-i).toNat rest else natDigitsAux i.toNat rest

/-- One line item rendered exactly as `json.dumps` renders the Python dict
built by `_get_full_order_info` (default separators `", "` and `": "`). -/
def itemChars (it : LineItem) (rest : List Char) : List Char :=
  Char.ofNat 123 ::
    ("\"name\": ".data ++ strChars it.name
      (", \"description\": ".data ++ strChars it.description
        (", \"quantity\": ".data ++ intChars it.quantity
          (", \"price\": ".data ++ intChars it.price
            (", \"total_price\": ".data ++ intChars it.total_price
              (Char.ofNat 125 :: rest))))))

/-- Tail of a serialized item list: either the closing bracket or
`", "` followed by the next item. -/
def itemsTailChars : List LineItem → List Char → List Char
  | [], rest => ']' :: rest
  | x :: xs, rest => ',' :: ' ' :: itemChars x (itemsTailChars xs rest)

/-- A serialized JSON array of line items. -/
def itemsChars : List LineItem → List Char → List Char
  | [], rest => '[' :: ']' :: rest
  | x :: xs, rest => '[' :: itemChars x (itemsTailChars xs rest)

/-- `json.dumps(items, ensure_ascii=False)` for the line-item lists stored by
the `Order.items` setter. -/
def json_dumps_items (l : List LineItem) : String :=
  String.mk (itemsChars l [])

/-- Numeric value of a hexadecimal digit accepted by `json.loads`. -/
def fromHexDigit (c : Char) : Option Nat :=
  if 48 ≤ c.toNat ∧ c.toNat ≤ 57 then some (c.toNat - 48)
  else if 97 ≤ c.toNat ∧ c.toNat ≤ 102 then some (c.toNat - 87)
  else if 65 ≤ c.toNat ∧ c.toNat ≤ 70 then some (c.toNat - 55)
  else none

/-- Body of a JSON string after the opening quote: decodes escapes, rejects
raw control characters (strict mode), stops at the closing quote and returns
the remaining input. -/
def parseStrBody (l : List Char) : Option (List Char × List Char) :=
  match l with
  | [] => none
  | c :: rest =>
    if c = '"' then some ([], rest)
    else if c = '\\' then
      match rest with
      | [] => none
      | e :: rest2 =>
        if e = '"' then (parseStrBody rest2).map (fun p => ('"' :: p.1, p.2))
        else if e = '\\' then (parseStrBody rest2).map (fun p => ('\\' :: p.1, p.2))
        else if e = 'n' then (parseStrBody rest2).map (fun p => ('\n' :: p.1, p.2))
        else if e = 't' then (parseStrBody rest2).map (fun p => ('\t' :: p.1, p.2))
        else if e = 'r' then (parseStrBody rest2).map (fun p => ('\r' :: p.1, p.2))
        else if e = 'b' then (parseStrBody rest2).map (fun p => (Char.ofNat 8 :: p.1, p.2))
        else if e = 'f' then (parseStrBody rest2).map (fun p => (Char.ofNat 12 :: p.1, p.2))
        else if e = 'u' then
          match rest2 with
          | h1 :: h2 :: h3 :: h4 :: rest3 =>
            match fromHexDigit h1, fromHexDigit h2, fromHexDigit h3, fromHexDigit h4 with
            | some a, some b, some c2, some d =>
              (parseStrBody rest3).map
                (fun p => (Char.ofNat (((a * 16 + b) * 16 + c2) * 16 + d) :: p.1, p.2))
            | _, _, _, _ => none
          | _ => none
        else none
    else if c.toNat < 32 then none
    else (parseStrBody rest).map (fun p => (c :: p.1, p.2))
  termination_by l.length
  decreasing_by all_goals simp_arith [*]

/-- A complete JSON string (both quotes), returning the decoded `String`. -/
def parseString (l : List Char) : Option (String × List Char) :=
  match l with
  | [] => none
  | c :: rest =>
    if c = '"' then (parseStrBody rest).map (fun p => (String.mk p.1, p.2)) else none

/-- Greedy run of decimal digits accumulated onto `acc`. -/
def parseNatAcc (acc : Nat) : List Char → Nat × List Char
  | [] => (acc, [])
  | c :: rest =>
    if c.isDigit then parseNatAcc (acc * 10 + (c.toNat - 48)) rest else (acc, c :: rest)

/-- A JSON integer: optional minus sign followed by at least one digit. -/
def parseInt (l : List Char) : Option (Int × List Char) :=
  match l with
  | [] => none
  | c :: rest =>
    if c = '-' then
      match rest with
      | [] => none
      | d :: rest2 =>
        if d.isDigit then
          let p := parseNatAcc (d.toNat - 48) rest2
          some (-(p.1 : Int), p.2)
        else none
    else if c.isDigit then
      let p := parseNatAcc (c.toNat - 48) rest
      some ((p.1 : Int), p.2)
    else none

/-- Whether the input starts with a decimal digit (the greedy number parser
would keep consuming). -/
def leadDigit : List Char → Bool
  | [] => false
  | c :: _ => c.isDigit

/-- Match a literal character sequence and return the remaining input. -/
def expectLit : List Char → List Char → Option (List Char)
  | [], l => some l
  | c :: cs, d :: ds => if c = d then expectLit cs ds else none
  | _ :: _, [] => none

/-- One serialized line-item object. -/
def parseItem (l : List Char) : Option (LineItem × List Char) :=
  match l with
  | [] => none
  | c :: rest =>
    if c = Char.ofNat 123 then
      (expectLit "\"name\": ".data rest).bind fun r1 =>
      (parseString r1).bind fun p1 =>
      (expectLit ", \"description\": ".data p1.2).bind fun r3 =>
      (parseString r3).bind fun p2 =>
      (expectLit ", \"quantity\": ".data p2.2).bind fun r5 =>
      (parseInt r5).bind fun p3 =>
      (expectLit ", \"price\": ".data p3.2).bind fun r7 =>
      (parseInt r7).bind fun p4 =>
      (expectLit ", \"total_price\": ".data p4.2).bind fun r9 =>
      (parseInt r9).bind fun p5 =>
      match p5.2 with
      | [] => none
      | d :: r11 =>
        if d = Char.ofNat 125 then
          some (⟨p1.1, p2.1, p3.1, p4.1, p5.1⟩, r11)
        else none
    else none

/-- Remaining elements of a serialized array, with a recursion budget. -/
def parseItemsTail : Nat → List Char → Option (List LineItem × List Char)
  | _, [] => none
  | fuel, c :: rest =>
    if c = ']' then some ([], rest)
    else if c = ',' then
      match rest with
      | ' ' :: rest2 =>
        match fuel with
        | 0 => none
        | fuel' + 1 =>
          (parseItem rest2).bind fun p =>
          (parseItemsTail fuel' p.2).map fun q => (p.1 :: q.1, q.2)
      | _ => none
    else none

/-- A serialized JSON array of line items. -/
def parseItems (l : List Char) : Option (List LineItem × List Char) :=
  match l with
  | [] => none
  | c :: rest =>
    if c = '[' then
      match rest with
      | [] => none
      | d :: rest2 =>
        if d = ']' then some ([], rest2)
        else
          (parseItem rest).bind fun p =>
          (parseItemsTail rest.length p.2).map fun q => (p.1 :: q.1, q.2)
    else none

/-- `json.loads` on a stored `items_json` blob, typed at the line-item list
shape; `none` models the `except` branch of the `Order.items` getter. -/
def json_loads_items (s : String) : Option (List LineItem) :=
  (parseItems s.data).bind fun p => if p.2 = [] then some p.1 else none

/-- The persisted order record (`src/database/models.py`, class `Order`).
`DateTime` columns are epoch milliseconds, the `Float` price column is an
integer amount, and the base64 `Text` column for the waybill PDF holds the
decoded byte content (base64 is a bijective storage encoding). -/
structure Order where
  id : String
  code : String
  status : String
  state : String
  total_price : Int
  customer_name : String
  customer_phone : String
  delivery_mode : String
  delivery_address : String
  warehouse_id : String
  warehouse_name : String
  warehouse_address : String
  planned_delivery_date : Option Int
  created_at : Int
  notified_at : Option Int
  is_kaspi_delivery : Bool
  is_express : Bool
  waybill_url : Option String
  waybill_pdf : Option Bytes
  items_json : Option String
  deriving DecidableEq

/-- The `Order.items` property getter: parse `items_json`, with `[]` for a
missing blob and for the `except` branch. -/
def Order.items (o : Order) : List LineItem :=
  match o.items_json with
  | some s => (json_loads_items s).getD []
  | none => []

/-- The `Order.items` property setter: a non-empty (truthy) list is stored as
its JSON dump, an empty one clears the column. -/
def Order.setItems (o : Order) (value : List LineItem) : Order :=
  if value = [] then { o with items_json := none }
  else { o with items_json := some (json_dumps_items value) }

/-- The orders table. -/
abbrev Store := List Order

/-- `session.query(Order).filter_by(code=...).first()`. -/
def find_order (code : String) (s : Store) : Option Order :=
  s.find? (fun o => decide (o.code = code))

/-- Replace the first record satisfying `p` (SQLAlchemy updates the record
returned by `.first()`; `code` is a unique column). -/
def updateFirst (p : Order → Bool) (f : Order → Order) : Store → Store
  | [] => []
  | x :: xs => if p x then f x :: xs else x :: updateFirst p f xs

/-- `Database.is_order_notified`: the record exists and `notified_at` is
non-null. -/
def is_order_notified (code : String) (s : Store) : Bool :=
  match find_order code s with
  | some o => o.notified_at.isSome
  | none => false

/-- The payload handed to `Database.save_order` by
`OrderService.save_order_to_db` (note: no `notified_at`, no `created_at`). -/
structure OrderData where
  id : String
  code : String
  status : String
  state : String
  total_price : Int
  customer_name : String
  customer_phone : String
  delivery_mode : String
  delivery_address : String
  warehouse_id : String
  warehouse_name : String
  warehouse_address : String
  planned_delivery_date : Option Int
  is_kaspi_delivery : Bool
  is_express : Bool
  waybill_url : String
  waybill_pdf_data : Option Bytes
  items : List LineItem
  deriving DecidableEq

/-- Truthiness of an optional byte payload (`if waybill_pdf_data:`). -/
def bytesTruthy : Option Bytes → Bool
  | none => false
  | some p => decide (p ≠ [])

/-- The record created by `Order(**order_data)` in `save_order` for a code not
yet present: `notified_at` is null, `created_at` takes the column default,
items and PDF are set only when truthy. -/
def new_order (now : Int) (d : OrderData) : Order :=
  { id := d.id, code := d.code, status := d.status, state := d.state,
    total_price := d.total_price, customer_name := d.customer_name,
    customer_phone := d.customer_phone, delivery_mode := d.delivery_mode,
    delivery_address := d.delivery_address, warehouse_id := d.warehouse_id,
    warehouse_name := d.warehouse_name, warehouse_address := d.warehouse_address,
    planned_delivery_date := d.planned_delivery_date,
    created_at := now, notified_at := none,
    is_kaspi_delivery := d.is_kaspi_delivery, is_express := d.is_express,
    waybill_url := some d.waybill_url,
    waybill_pdf := if bytesTruthy d.waybill_pdf_data then d.waybill_pdf_data else none,
    items_json := if d.items = [] then none else some (json_dumps_items d.items) }

/-- The `setattr` loop of `save_order` on an existing record: every key still
in the dict is overwritten; `items` and `waybill_pdf_data` were popped and are
applied only when truthy; `notified_at` and `created_at` are not in the dict. -/
def update_order_fields (o : Order) (d : OrderData) : Order :=
  { o with
    id := d.id, code := d.code, status := d.status, state := d.state,
    total_price := d.total_price, customer_name := d.customer_name,
    customer_phone := d.customer_phone, delivery_mode := d.delivery_mode,
    delivery_address := d.delivery_address, warehouse_id := d.warehouse_id,
    warehouse_name := d.warehouse_name, warehouse_address := d.warehouse_address,
    planned_delivery_date := d.planned_delivery_date,
    is_kaspi_delivery := d.is_kaspi_delivery, is_express := d.is_express,
    waybill_url := some d.waybill_url,
    waybill_pdf := if bytesTruthy d.waybill_pdf_data then d.waybill_pdf_data else o.waybill_pdf,
    items_json := if d.items = [] then o.items_json else some (json_dumps_items d.items) }

/-- `Database.save_order`: insert a new record or update the existing one. -/
def save_order (now : Int) (d : OrderData) (s : Store) : Store :=
  match find_order d.code s with
  | none => s ++ [new_order now d]
  | some _ => updateFirst (fun o => decide (o.code = d.code)) (fun o => update_order_fields o d) s

/-- `Database.mark_as_notified`: stamp `notified_at` if the record exists. -/
def mark_as_notified (code : String) (now : Int) (s : Store) : Store :=
  updateFirst (fun o => decide (o.code = code)) (fun o => { o with notified_at := some now }) s

/-- `Database.update_order_status`: set `status` if the record exists. -/
def update_order_status (code : String) (st : String) (s : Store) : Store :=
  updateFirst (fun o => decide (o.code = code)) (fun o => { o with status := st }) s

/-- `Database.update_order_waybill`: set the waybill URL and, when PDF bytes
are supplied, the cached PDF. -/
def update_order_waybill (code : String) (url : String) (pdf : Option Bytes) (s : Store) : Store :=
  updateFirst (fun o => decide (o.code = code))
    (fun o => { o with
                waybill_url := some url,
                waybill_pdf := if bytesTruthy pdf then pdf else o.waybill_pdf }) s

/-- `Database.clear_all_orders`: delete everything, return the count. -/
def clear_all_orders (s : Store) : Nat × Store :=
  (s.length, [])

/-- Failure of an HTTP call: `httpx.HTTPStatusError` with its response status
code, or any other exception (timeout, connection failure, ...). -/
inductive HttpFailure where
  | statusCode : Nat → HttpFailure
  | other : HttpFailure
  deriving DecidableEq

/-- The `attributes` object of an `orderentries/{id}/product` response. -/
structure ProductAttrs where
  name : Option String
  manufacturer : Option String
  code : Option String
  deriving DecidableEq

/-- The `data` member of a product response. -/
structure ProductData where
  attributes : ProductAttrs
  deriving DecidableEq

/-- A parsed product-description response body. -/
structure ProductResponse where
  data : ProductData
  deriving DecidableEq

/-- The `{'data': {'attributes': {}}}` value returned on failure. -/
def empty_product_response : ProductResponse :=
  { data := { attributes := { name := none, manufacturer := none, code := none } } }

/-- `KaspiAPIClient.get_product_description`: the HTTP outcome is the
argument; every failure (the dedicated 404 branch as well as the generic
`except`) yields the empty-attributes payload instead of re-raising. -/
def get_product_description : Except HttpFailure ProductResponse → ProductResponse
  | .ok r => r
  | .error _ => empty_product_response

/-- The query parameters assembled by `KaspiAPIClient.get_orders`. -/
structure GetOrdersParams where
  page_number : Nat
  page_size : Nat
  creation_date_from : Int
  creation_date_to : Int
  status_filter : Option String
  state_filter : Option String
  deriving DecidableEq

/-- Milliseconds in the 14-day window `timedelta(days=14)`. -/
def fourteen_days_ms : Int := 14 * 24 * 60 * 60 * 1000

/-- `KaspiAPIClient.get_orders`, up to the request itself: the parameter
dictionary it sends.  `now` is the clock value at the call (the code reads
`datetime.now()` once for each defaulted bound within the same call; both
reads are modelled as the single instant `now`).  A truthy status/state list
is joined with commas; missing date bounds default to the 14-day window. -/
def get_orders_params (status state : Option (List String))
    (page_number page_size : Nat)
    (creation_date_from creation_date_to : Option Int) (now : Int) : GetOrdersParams :=
  { page_number := page_number,
    page_size := min page_size 100,
    creation_date_from := creation_date_from.getD (now - fourteen_days_ms),
    creation_date_to := creation_date_to.getD now,
    status_filter := status.bind (fun l => if l = [] then none else some (String.intercalate "," l)),
    state_filter := state.bind (fun l => if l = [] then none else some (String.intercalate "," l)) }

/-- The `customer` object of an order's attributes. -/
structure RemoteCustomer where
  firstName : Option String
  lastName : Option String
  cellPhone : Option String
  deriving DecidableEq

/-- The `deliveryAddress` object of an order's attributes. -/
structure RemoteAddress where
  formattedAddress : Option String
  deriving DecidableEq

/-- The `attributes` object of an order resource as read by the service. -/
structure RemoteAttrs where
  code : String
  status : String
  state : String
  totalPrice : Option Int
  customer : Option RemoteCustomer
  deliveryAddress : Option RemoteAddress
  deliveryMode : Option String
  isKaspiDelivery : Option Bool
  express : Option Bool
  waybill : Option String
  plannedDeliveryDate : Option Int
  creationDate : Option Int
  deriving DecidableEq

/-- One order resource from the listing response. -/
structure RemoteOrder where
  id : String
  attributes : RemoteAttrs
  deriving DecidableEq

/-- The `category` object of a line-item resource. -/
structure ItemCategory where
  title : Option String
  deriving DecidableEq

/-- The `attributes` object of a line-item (`entries`) resource. -/
structure RemoteItemAttrs where
  category : Option ItemCategory
  quantity : Option Int
  basePrice : Option Int
  totalPrice : Option Int
  deriving DecidableEq

/-- One line-item resource. -/
structure RemoteItem where
  id : String
  attributes : RemoteItemAttrs
  deriving DecidableEq

/-- The `address` object of a point-of-service's attributes. -/
structure PointAddress where
  formattedAddress : Option String
  deriving DecidableEq

/-- The `attributes` object of a `deliveryPointOfService` response. -/
structure WarehouseAttrs where
  displayName : Option String
  address : Option PointAddress
  deriving DecidableEq

/-- The `data` member of a `deliveryPointOfService` response. -/
structure WarehouseData where
  id : Option String
  attributes : Option WarehouseAttrs
  deriving DecidableEq

/-- The place the service keeps warehouse metadata in
(`warehouse_info = {'id': ..., 'name': ..., 'address': ...}`). -/
structure WarehouseInfo where
  id : String
  name : String
  address : String
  deriving DecidableEq

/-- `OrderService._format_timestamp`: `None`/`0` are falsy and map to null;
the produced datetime is represented by its epoch milliseconds. -/
def format_timestamp : Option Int → Option Int
  | some t => if t = 0 then none else some t
  | none => none

/-- `OrderService._get_delivery_type_text`, translated clause by clause. -/
def get_delivery_type_text (delivery_mode : String) (is_kaspi_delivery : Bool) : String :=
  if delivery_mode = "DELIVERY_LOCAL" then
    if is_kaspi_delivery then "Kaspi Доставка (по городу)"
    else "Доставка по городу (своими силами)"
  else if delivery_mode = "DELIVERY_PICKUP" then
    if is_kaspi_delivery then "Kaspi Postomat" else "Самовывоз"
  else if delivery_mode = "DELIVERY_REGIONAL_TODOOR" then
    if is_kaspi_delivery then "Kaspi Доставка (по области)" else "Доставка по области"
  else if delivery_mode = "DELIVERY_REGIONAL_PICKUP" then
    "🏪 Самовывоз (доставка по области до склада)"
  else "📍 " ++ delivery_mode

/-- Oracles for the per-order remote calls made while assembling one order:
the `entries` listing, the per-item product lookup (indexed by item
position), the warehouse lookup of the first item, and the PDF download.
`.error` models the underlying call raising. -/
structure OrderEnv where
  itemsCall : Except Unit (List RemoteItem)
  product : Nat → Except HttpFailure ProductResponse
  warehouseCall : Except Unit WarehouseData
  pdfDownload : Option Bytes

/-- The description text assembled from a product payload: the truthy parts
among name, `Бренд:`-prefixed manufacturer and code, joined with `" | "`. -/
def description_parts (pa : ProductAttrs) : List String :=
  (match pa.name with
   | some n => if n = "" then [] else [n]
   | none => []) ++
  (match pa.manufacturer with
   | some m => if m = "" then [] else ["Бренд: " ++ m]
   | none => []) ++
  (match pa.code with
   | some c => if c = "" then [] else [c]
   | none => [])

/-- One entry of the `items` list built in `_get_full_order_info`. -/
def build_line_item (env : OrderEnv) (idx : Nat) (item : RemoteItem) : LineItem :=
  let pa := (get_product_description (env.product idx)).data.attributes
  { name := (item.attributes.category.bind (fun c => c.title)).getD "Товар",
    description := String.intercalate " | " (description_parts pa),
    quantity := item.attributes.quantity.getD 1,
    price := item.attributes.basePrice.getD 0,
    total_price := item.attributes.totalPrice.getD 0 }

/-- The warehouse info computed on the first loop iteration: the parsed
response on success, the placeholder dict when the lookup raised. -/
def warehouse_from_call : Except Unit WarehouseData → WarehouseInfo
  | .ok w =>
    { id := w.id.getD "",
      name := (w.attributes.bind (fun a => a.displayName)).getD "Не указан",
      address := ((w.attributes.bind (fun a => a.address)).bind
        (fun ad => ad.formattedAddress)).getD "Адрес не указан" }
  | .error _ =>
    { id := "", name := "Не указан", address := "Адрес не указан" }

/-- The composite dict built by `_get_full_order_info`. -/
structure OrderInfo where
  id : String
  code : String
  status : String
  state : String
  total_price : Int
  customer_name : String
  customer_phone : String
  delivery_mode : String
  delivery_type_text : String
  delivery_address : String
  is_kaspi_delivery : Bool
  is_express : Bool
  planned_delivery_date : Option Int
  creation_date : Option Int
  warehouse_id : String
  warehouse_name : String
  warehouse_address : String
  items : List LineItem
  waybill_url : String
  waybill_pdf_data : Option Bytes
  deriving DecidableEq

/-- `OrderService._get_full_order_info`: `none` models the outer `except`
branch, reached when the `entries` listing raises.  Product failures degrade
to an empty description, a warehouse failure to the placeholder, and the PDF
is only downloaded when the waybill URL is truthy. -/
def get_full_order_info (order : RemoteOrder) (env : OrderEnv) : Option OrderInfo :=
  match env.itemsCall with
  | .error _ => none
  | .ok items_data =>
    let items := items_data.enum.map (fun p => build_line_item env p.1 p.2)
    let warehouse : Option WarehouseInfo :=
      if items_data.isEmpty then none else some (warehouse_from_call env.warehouseCall)
    let a := order.attributes
    let waybill_url := a.waybill.getD ""
    some
      { id := order.id,
        code := a.code,
        status := a.status,
        state := a.state,
        total_price := a.totalPrice.getD 0,
        customer_name :=
          (((a.customer.bind (fun c => c.firstName)).getD "") ++ " " ++
            ((a.customer.bind (fun c => c.lastName)).getD "")).trim,
        customer_phone := (a.customer.bind (fun c => c.cellPhone)).getD "Не указан",
        delivery_mode := a.deliveryMode.getD "",
        delivery_type_text :=
          get_delivery_type_text (a.deliveryMode.getD "") (a.isKaspiDelivery.getD false),
        delivery_address :=
          (a.deliveryAddress.bind (fun ad => ad.formattedAddress)).getD "Самовывоз",
        is_kaspi_delivery := a.isKaspiDelivery.getD false,
        is_express := a.express.getD false,
        planned_delivery_date := format_timestamp a.plannedDeliveryDate,
        creation_date := format_timestamp a.creationDate,
        warehouse_id := (warehouse.map (fun w => w.id)).getD "",
        warehouse_name := (warehouse.map (fun w => w.name)).getD "Не указан",
        warehouse_address := (warehouse.map (fun w => w.address)).getD "Адрес не указан",
        items := items,
        waybill_url := waybill_url,
        waybill_pdf_data := if waybill_url = "" then none else env.pdfDownload }

/-- `OrderService.save_order_to_db`: the dict it forwards to
`Database.save_order`. -/
def to_order_data (i : OrderInfo) : OrderData :=
  { id := i.id, code := i.code, status := i.status, state := i.state,
    total_price := i.total_price, customer_name := i.customer_name,
    customer_phone := i.customer_phone, delivery_mode := i.delivery_mode,
    delivery_address := i.delivery_address, warehouse_id := i.warehouse_id,
    warehouse_name := i.warehouse_name, warehouse_address := i.warehouse_address,
    planned_delivery_date := i.planned_delivery_date,
    is_kaspi_delivery := i.is_kaspi_delivery, is_express := i.is_express,
    waybill_url := i.waybill_url, waybill_pdf_data := i.waybill_pdf_data,
    items := i.items }

/-- The completion test in `get_new_orders`. -/
def is_completed_status (status state : String) : Bool :=
  (status = "COMPLETED" || status = "CANCELLED" || status = "CANCELLING")
    || state = "ARCHIVE"

/-- The per-order loop of `OrderService.get_new_orders`: skip codes already
notified, skip orders whose composite info could not be assembled, save and
mark every processed order, and emit only non-completed ones. -/
def sync_loop : List (RemoteOrder × OrderEnv) → Int → Store → List OrderInfo × Store
  | [], _, s => ([], s)
  | (order, env) :: rest, now, s =>
    if is_order_notified order.attributes.code s then sync_loop rest now s
    else
      match get_full_order_info order env with
      | none => sync_loop rest now s
      | some info =>
        let s2 := mark_as_notified order.attributes.code now (save_order now (to_order_data info) s)
        let r := sync_loop rest now s2
        (if is_completed_status order.attributes.status order.attributes.state
         then r.1 else info :: r.1, r.2)

/-- `OrderService.get_new_orders`: the top-level listing call is the
argument; its failure is caught by the outer `except`, which returns the
empty batch (the store untouched).  An empty listing returns early with the
same result. -/
def get_new_orders (listing : Except Unit (List (RemoteOrder × OrderEnv)))
    (now : Int) (s : Store) : List OrderInfo × Store :=
  match listing with
  | .error _ => ([], s)
  | .ok orders => sync_loop orders now s

/-- A sequence of sync passes, each with its own listing outcome and clock;
returns the notification batches in order. -/
def run_sync_passes : List (Except Unit (List (RemoteOrder × OrderEnv)) × Int) → Store →
    List (List OrderInfo) × Store
  | [], s => ([], s)
  | (listing, now) :: ps, s =>
    let r := get_new_orders listing now s
    let rest := run_sync_passes ps r.2
    (r.1 :: rest.1, rest.2)

/-- Orders with a given code inside one notification batch. -/
def count_code (code : String) (l : List OrderInfo) : Nat :=
  (l.filter (fun i => decide (i.code = code))).length

/-- Notifications ever produced for a given code across a list of batches. -/
def note_count (code : String) (batches : List (List OrderInfo)) : Nat :=
  (batches.map (count_code code)).sum

/-- `OrderService.accept_order`: the remote `accept_order` call is the
argument.  Failure is caught and reported as `false`; success updates the
stored status and reports `true`. -/
def accept_order (remote : Except Unit Unit) (_order_id order_code : String)
    (s : Store) : Bool × Store :=
  match remote with
  | .error _ => (false, s)
  | .ok _ => (true, update_order_status order_code "ACCEPTED_BY_MERCHANT" s)

/-- The value `create_waybill` returns: the success dict with its
`waybill_url` entry, or the `False` returned from the `except` branch. -/
inductive WaybillResult where
  | success : Option String → WaybillResult
  | failed : WaybillResult
  deriving DecidableEq

/-- The slice of order attributes read while polling for the waybill. -/
structure WaybillAttrs where
  code : Option String
  waybill : Option String
  deriving DecidableEq

/-- Oracles for the remote calls the body of `create_waybill` is written to
make: the `ASSEMBLE` status change, the two polling reads of the order, and
the PDF download. -/
structure WaybillEnv where
  changeStatus : Except Unit Unit
  poll1 : Except Unit WaybillAttrs
  poll2 : Except Unit WaybillAttrs
  pdfDownload : Option Bytes

/-- `OrderService.create_waybill`.  Its first statement inside the `try`
invokes `self.kaspi.change_order_status(order_code=..., status='ASSEMBLE',
number_of_space=...)`, but `KaspiAPIClient.change_order_status` is declared
`(self, order_id, status, number_of_space=1)` — it has no `order_code`
parameter — so Python raises `TypeError` before any request is issued,
whatever the remote would answer.  The outer `except Exception` catches it
and returns `False`; the polling, PDF and store-update code further down the
function is unreachable.  The embedding therefore returns the failure value
with the store untouched, ignoring the (never consulted) remote oracles. -/
def create_waybill (_env : WaybillEnv) (_order_id : String) (_number_of_spaces : Nat)
    (s : Store) : WaybillResult × Store :=
  (.failed, s)

/-- The fixed cancellation reasons offered by the bot layer. -/
inductive CancelReason where
  | buyer_cancellation_by_merchant
  | buyer_not_reachable
  | merchant_out_of_stock
  deriving DecidableEq

/-- The API value for each reason (the strings wired into the bot's
callback buttons). -/
def cancel_reason_code : CancelReason → String
  | .buyer_cancellation_by_merchant => "BUYER_CANCELLATION_BY_MERCHANT"
  | .buyer_not_reachable => "BUYER_NOT_REACHABLE"
  | .merchant_out_of_stock => "MERCHANT_OUT_OF_STOCK"

/-- Modelled from the spec: `OrderService.cancel_order` is called by
`TelegramBot.handle_cancel_order` but is not defined anywhere under `src/`;
spec §4.3 specifies `cancel(id, code, reason)` as transitioning the remote
order's status to `CANCELLED` for a reason drawn from the fixed enumerated
set.  The remote order is modelled by its attributes. -/
def cancel_order (_order_id _order_code : String) (_reason : CancelReason)
    (remote : RemoteAttrs) : RemoteAttrs :=
  { remote with status := "CANCELLED" }

/-- A concrete line item used in counterexamples. -/
def sampleItem : LineItem :=
  { name := "Товар", description := "", quantity := 1, price := 100, total_price := 100 }

/-- A concrete stored record: code `100045`, already notified, status still
`APPROVED_BY_BANK`, with one stored line item. -/
def sampleStored : Order :=
  { id := "MTAwMDQ1", code := "100045", status := "APPROVED_BY_BANK", state := "NEW",
    total_price := 100, customer_name := "A B", customer_phone := "7", delivery_mode := "",
    delivery_address := "", warehouse_id := "", warehouse_name := "", warehouse_address := "",
    planned_delivery_date := none, created_at := 1, notified_at := some 2,
    is_kaspi_delivery := false, is_express := false, waybill_url := some "",
    waybill_pdf := none, items_json := some (json_dumps_items [sampleItem]) }

/-- The same order observed remotely on a later pass, its status meanwhile
changed to `ACCEPTED_BY_MERCHANT`. -/
def sampleRemote : RemoteOrder :=
  { id := "MTAwMDQ1",
    attributes :=
      { code := "100045", status := "ACCEPTED_BY_MERCHANT", state := "NEW",
        totalPrice := some 100, customer := none, deliveryAddress := none,
        deliveryMode := none, isKaspiDelivery := none, express := none, waybill := none,
        plannedDeliveryDate := none, creationDate := none } }

/-- Oracles for one aggregation of `sampleRemote` in which every sub-call
succeeds trivially. -/
def sampleEnv : OrderEnv :=
  { itemsCall := Except.ok [], product := fun _ => Except.error HttpFailure.other,
    warehouseCall := Except.error (), pdfDownload := none }

/-- A later observation of `sampleStored`'s order carrying an empty item
list and otherwise identical field values. -/
def sampleData : OrderData :=
  { id := "MTAwMDQ1", code := "100045", status := "APPROVED_BY_BANK", state := "NEW",
    total_price := 100, customer_name := "A B", customer_phone := "7", delivery_mode := "",
    delivery_address := "", warehouse_id := "", warehouse_name := "", warehouse_address := "",
    planned_delivery_date := none, is_kaspi_delivery := false, is_express := false,
    waybill_url := "", waybill_pdf_data := none, items := [] }

theorem expectLit_append (lit rest : List Char) : expectLit lit (lit ++ rest) = some rest := by
  induction lit with
  | nil => rfl
  | cons c cs ih => simp [expectLit, ih]

theorem fromHexDigit_hexDigitChar : ∀ n < 16, fromHexDigit (hexDigitChar n) = some n := by
  decide

theorem parseStrBody_escape (s rest : List Char) :
    parseStrBody (escapeList s ('"' :: rest)) = some (s, rest) := by
  induction s with
  | nil => rw [escapeList, parseStrBody.eq_def]; simp
  | cons c cs ih =>
    by_cases h1 : c = '"'
    · subst h1
      have e1 : escapeList ('"' :: cs) ('"' :: rest)
          = '\\' :: '"' :: escapeList cs ('"' :: rest) := by simp [escapeList, escChar]
      rw [e1, parseStrBody.eq_def]; simp [ih]
    · by_cases h2 : c = '\\'
      · subst h2
        have e1 : escapeList ('\\' :: cs) ('"' :: rest)
            = '\\' :: '\\' :: escapeList cs ('"' :: rest) := by simp [escapeList, escChar]
        rw [e1, parseStrBody.eq_def]; simp [ih]
      · by_cases h3 : c = '\n'
        · subst h3
          have e1 : escapeList ('\n' :: cs) ('"' :: rest)
              = '\\' :: 'n' :: escapeList cs ('"' :: rest) := by simp [escapeList, escChar]
          rw [e1, parseStrBody.eq_def]; simp [ih]
        · by_cases h4 : c = '\t'
          · subst h4
            have e1 : escapeList ('\t' :: cs) ('"' :: rest)
                = '\\' :: 't' :: escapeList cs ('"' :: rest) := by simp [escapeList, escChar]
            rw [e1, parseStrBody.eq_def]; simp [ih]
          · by_cases h5 : c = '\r'
            · subst h5
              have e1 : escapeList ('\r' :: cs) ('"' :: rest)
                  = '\\' :: 'r' :: escapeList cs ('"' :: rest) := by simp [escapeList, escChar]
              rw [e1, parseStrBody.eq_def]; simp [ih]
            · by_cases h6 : c = Char.ofNat 8
              · subst h6
                have e1 : escapeList (Char.ofNat 8 :: cs) ('"' :: rest)
                    = '\\' :: 'b' :: escapeList cs ('"' :: rest) := by simp [escapeList, escChar]
                rw [e1, parseStrBody.eq_def]; simp [ih]
              · by_cases h7 : c = Char.ofNat 12
                · subst h7
                  have e1 : escapeList (Char.ofNat 12 :: cs) ('"' :: rest)
                      = '\\' :: 'f' :: escapeList cs ('"' :: rest) := by
                    simp [escapeList, escChar]
                  rw [e1, parseStrBody.eq_def]; simp [ih]
                · by_cases h8 : c.toNat < 32
                  · have hhi : c.toNat / 16 < 16 := by omega
                    have hlo : c.toNat % 16 < 16 := by omega
                    have e1 : escapeList (c :: cs) ('"' :: rest)
                        = '\\' :: 'u' :: '0' :: '0' :: hexDigitChar (c.toNat / 16)
                          :: hexDigitChar (c.toNat % 16) :: escapeList cs ('"' :: rest) := by
                      simp [escapeList, escChar, h1, h2, h3, h4, h5, h6, h7, h8]
                    rw [e1, parseStrBody.eq_def]
                    simp [ih, fromHexDigit_hexDigitChar _ hhi, fromHexDigit_hexDigitChar _ hlo,
                      (by decide : fromHexDigit '0' = some 0)]
                    rw [show c.toNat / 16 * 16 + c.toNat % 16 = c.toNat from by omega]
                    exact Char.ofNat_toNat c
                  · have e1 : escapeList (c :: cs) ('"' :: rest)
                        = c :: escapeList cs ('"' :: rest) := by
                      simp [escapeList, escChar, h1, h2, h3, h4, h5, h6, h7, h8]
                    rw [e1, parseStrBody.eq_def]
                    simp [ih, h1, h2, h8]

theorem parseString_strChars (s : String) (rest : List Char) :
    parseString (strChars s rest) = some (s, rest) := by
  simp [strChars, parseString, parseStrBody_escape]

theorem natDigitsAux_append (n : Nat) (acc : List Char) :
    natDigitsAux n acc = natDigitsAux n [] ++ acc := by
  induction n using Nat.strong_induction_on generalizing acc with
  | _ n ih =>
    by_cases h : n < 10
    · rw [natDigitsAux.eq_def]
      conv_rhs => rw [natDigitsAux.eq_def]
      simp [h]
    · rw [natDigitsAux.eq_def]
      conv_rhs => rw [natDigitsAux.eq_def]
      simp only [h, if_false]
      rw [ih (n / 10) (Nat.div_lt_self (by omega) (by omega))]
      conv_rhs => rw [ih (n / 10) (Nat.div_lt_self (by omega) (by omega))]
      simp

theorem natDigitsAux_ne_nil (n : Nat) : natDigitsAux n [] ≠ [] := by
  rw [natDigitsAux.eq_def]
  by_cases h : n < 10
  · simp [h]
  · simp only [h, if_false]
    rw [natDigitsAux_append]
    simp

theorem natDigitsAux_isDigit (n : Nat) : ∀ c ∈ natDigitsAux n [], c.isDigit := by
  induction n using Nat.strong_induction_on with
  | _ n ih =>
    rw [natDigitsAux.eq_def]
    by_cases h : n < 10
    · simp only [h, if_true]
      intro c hc
      simp at hc
      subst hc
      revert h
      exact (by decide : ∀ m < 10, (Char.ofNat (48 + m)).isDigit) n
    · simp only [h, if_false]
      rw [natDigitsAux_append]
      intro c hc
      rcases List.mem_append.mp hc with h1 | h1
      · exact ih (n / 10) (Nat.div_lt_self (by omega) (by omega)) c h1
      · simp at h1
        subst h1
        exact (by decide : ∀ m < 10, (Char.ofNat (48 + m)).isDigit) (n % 10) (by omega)

theorem parseNatAcc_append (ds : List Char) (rest : List Char)
    (h : ∀ c ∈ ds, c.isDigit) (hr : leadDigit rest = false) (acc : Nat) :
    parseNatAcc acc (ds ++ rest)
      = (ds.foldl (fun a c => a * 10 + (c.toNat - 48)) acc, rest) := by
  induction ds generalizing acc with
  | nil =>
    cases rest with
    | nil => rfl
    | cons c r =>
      simp only [leadDigit] at hr
      simp [parseNatAcc, hr]
  | cons d ds ih =>
    have hd : d.isDigit := h d (by simp)
    simp [parseNatAcc, hd]
    exact ih (fun c hc => h c (by simp [hc])) _

theorem foldl_natDigits (n : Nat) : ∀ acc : Nat,
    (natDigitsAux n []).foldl (fun a c => a * 10 + (c.toNat - 48)) acc
      = acc * 10 ^ (natDigitsAux n []).length + n := by
  induction n using Nat.strong_induction_on with
  | _ n ih =>
    intro acc
    by_cases h : n < 10
    · rw [natDigitsAux.eq_def]
      simp only [h, if_true]
      have : (Char.ofNat (48 + n)).toNat = 48 + n :=
        (by decide : ∀ m < 10, (Char.ofNat (48 + m)).toNat = 48 + m) n h
      simp [this]
    · conv_lhs => rw [natDigitsAux.eq_def]
      conv in (natDigitsAux n []).length => rw [natDigitsAux.eq_def]
      simp only [h, if_false]
      rw [natDigitsAux_append, List.foldl_append, List.length_append]
      rw [ih (n / 10) (Nat.div_lt_self (by omega) (by omega))]
      have hm : (Char.ofNat (48 + n % 10)).toNat = 48 + n % 10 :=
        (by decide : ∀ m < 10, (Char.ofNat (48 + m)).toNat = 48 + m) (n % 10) (by omega)
      simp [hm, pow_succ]
      ring_nf
      omega

theorem parseNat_digits (n : Nat) (rest : List Char) (hr : leadDigit rest = false) :
    ∃ d ds, natDigitsAux n [] = d :: ds ∧ d.isDigit ∧
      parseNatAcc (d.toNat - 48) (ds ++ rest) = (n, rest) := by
  rcases hd : natDigitsAux n [] with _ | ⟨d, ds⟩
  · exact absurd hd (natDigitsAux_ne_nil n)
  · refine ⟨d, ds, rfl, natDigitsAux_isDigit n d (by simp [hd]), ?_⟩
    have hds : ∀ c ∈ ds, c.isDigit := fun c hc => natDigitsAux_isDigit n c (by simp [hd, hc])
    rw [parseNatAcc_append ds rest hds hr]
    have := foldl_natDigits n 0
    rw [hd] at this
    simp at this
    rw [← this]

theorem parseInt_intChars (i : Int) (rest : List Char) (hr : leadDigit rest = false) :
    parseInt (intChars i rest) = some (i, rest) := by
  by_cases hneg : i < 0
  · obtain ⟨d, ds, hd, hdig, hp⟩ := parseNat_digits (-i).toNat rest hr
    rw [intChars]
    simp only [hneg, if_true]
    rw [natDigitsAux_append, hd]
    have hdm : ¬(('-' : Char) = '-') = False := by simp
    simp [parseInt, hdig, hp]
    omega
  · obtain ⟨d, ds, hd, hdig, hp⟩ := parseNat_digits i.toNat rest hr
    rw [intChars]
    simp only [hneg, if_false]
    rw [natDigitsAux_append, hd]
    have hdd : ¬(d = '-') := by
      intro h
      subst h
      exact absurd hdig (by decide)
    simp [parseInt, hdd, hdig, hp]
    omega

theorem parseItem_itemChars (it : LineItem) (rest : List Char) :
    parseItem (itemChars it rest) = some (it, rest) := by
  rw [itemChars, parseItem.eq_def]
  simp only [if_true]
  simp [expectLit, parseString_strChars, parseInt_intChars, leadDigit]

theorem escapeList_length_ge (s t : List Char) : t.length ≤ (escapeList s t).length := by
  induction s with
  | nil => simp [escapeList]
  | cons c cs ih =>
    simp only [escapeList, List.length_append]
    omega

theorem strChars_length_ge (s : String) (t : List Char) :
    t.length + 1 ≤ (strChars s t).length := by
  have h := escapeList_length_ge s.data ('"' :: t)
  simp only [List.length_cons] at h
  simp only [strChars, List.length_cons]
  omega

theorem natDigitsAux_length_ge (n : Nat) (t : List Char) :
    t.length ≤ (natDigitsAux n t).length := by
  induction n using Nat.strong_induction_on generalizing t with
  | _ n ih =>
    rw [natDigitsAux.eq_def]
    by_cases h : n < 10
    · simp [h]
    · simp only [h, if_false]
      have := ih (n / 10) (Nat.div_lt_self (by omega) (by omega))
        (Char.ofNat (48 + n % 10) :: t)
      simp only [List.length_cons] at this
      omega

theorem intChars_length_ge (i : Int) (t : List Char) :
    t.length ≤ (intChars i t).length := by
  rw [intChars]
  by_cases h : i < 0
  · simp only [h, if_true, List.length_cons]
    have := natDigitsAux_length_ge (-i).toNat t
    omega
  · simp only [h, if_false]
    exact natDigitsAux_length_ge i.toNat t

theorem itemChars_length_ge (x : LineItem) (t : List Char) :
    t.length + 1 ≤ (itemChars x t).length := by
  have h5 := intChars_length_ge x.total_price (Char.ofNat 125 :: t)
  have h4 := intChars_length_ge x.price
    (", \"total_price\": ".data ++ intChars x.total_price (Char.ofNat 125 :: t))
  have h3 := intChars_length_ge x.quantity
    (", \"price\": ".data ++ intChars x.price
      (", \"total_price\": ".data ++ intChars x.total_price (Char.ofNat 125 :: t)))
  have h2 := strChars_length_ge x.description
    (", \"quantity\": ".data ++ intChars x.quantity
      (", \"price\": ".data ++ intChars x.price
        (", \"total_price\": ".data ++ intChars x.total_price (Char.ofNat 125 :: t))))
  have h1 := strChars_length_ge x.name
    (", \"description\": ".data ++ strChars x.description
      (", \"quantity\": ".data ++ intChars x.quantity
        (", \"price\": ".data ++ intChars x.price
          (", \"total_price\": ".data ++ intChars x.total_price (Char.ofNat 125 :: t)))))
  simp only [itemChars, List.length_cons, List.length_append] at *
  omega

theorem itemsTailChars_length_ge (xs : List LineItem) (r : List Char) :
    xs.length ≤ (itemsTailChars xs r).length := by
  induction xs generalizing r with
  | nil => simp [itemsTailChars]
  | cons x xs ih =>
    have h1 := itemChars_length_ge x (itemsTailChars xs r)
    have h2 := ih r
    simp only [itemsTailChars, List.length_cons]
    omega

theorem parseItemsTail_round (xs : List LineItem) : ∀ (fuel : Nat) (rest : List Char),
    xs.length ≤ fuel → parseItemsTail fuel (itemsTailChars xs rest) = some (xs, rest) := by
  induction xs with
  | nil =>
    intro fuel rest _
    rw [itemsTailChars, parseItemsTail.eq_def]
    simp
  | cons x xs ih =>
    intro fuel rest h
    cases fuel with
    | zero => simp at h
    | succ f =>
      have hx : xs.length ≤ f := by simp at h; omega
      rw [itemsTailChars, parseItemsTail.eq_def]
      simp [parseItem_itemChars, ih f rest hx]

theorem parseItems_itemsChars (l : List LineItem) (rest : List Char) :
    parseItems (itemsChars l rest) = some (l, rest) := by
  cases l with
  | nil => simp [itemsChars, parseItems]
  | cons x xs =>
    rw [itemsChars, itemChars, parseItems.eq_def]
    simp only [if_true]
    rw [← itemChars]
    have hfuel : xs.length ≤ (itemChars x (itemsTailChars xs rest)).length := by
      have h1 := itemChars_length_ge x (itemsTailChars xs rest)
      have h2 := itemsTailChars_length_ge xs rest
      omega
    simp [parseItem_itemChars, parseItemsTail_round xs _ rest hfuel]

theorem json_items_roundtrip (l : List LineItem) :
    json_loads_items (json_dumps_items l) = some l := by
  simp [json_dumps_items, json_loads_items, parseItems_itemsChars l []]

theorem find_order_updateFirst (code c : String) (f : Order → Order)
    (hf : ∀ o : Order, o.code = c → (f o).code = o.code) (s : Store) :
    find_order code (updateFirst (fun o => decide (o.code = c)) f s)
      = if c = code then (find_order code s).map f else find_order code s := by
  induction s with
  | nil => by_cases h : c = code <;> simp [find_order, updateFirst, h]
  | cons x xs ih =>
    by_cases hx : x.code = c
    · have hfx : (f x).code = x.code := hf x hx
      by_cases hcc : c = code
      · subst hcc
        simp [updateFirst, find_order, hx, List.find?_cons, hfx]
      · have hxc : ¬(x.code = code) := by rw [hx]; exact hcc
        have hfxc : ¬((f x).code = code) := by rw [hfx, hx]; exact hcc
        simp [updateFirst, find_order, hx, List.find?_cons, hxc, hfxc, hcc]
    · by_cases hxcode : x.code = code
      · have hcc : ¬(c = code) := by
          intro h
          exact hx (by rw [hxcode, h])
        have hccs : ¬(code = c) := fun hh => hcc hh.symm
        simp [updateFirst, find_order, hx, List.find?_cons, hxcode, hcc, hccs]
      · simp only [updateFirst, hx, decide_eq_true_eq, if_false]
        simp only [find_order, List.find?_cons, hxcode, decide_eq_true_eq] at *
        simp only [decide_eq_false hxcode]
        exact ih

theorem updateFirst_length (p : Order → Bool) (f : Order → Order) (s : Store) :
    (updateFirst p f s).length = s.length := by
  induction s with
  | nil => rfl
  | cons x xs ih => by_cases h : p x <;> simp [updateFirst, h, ih]

theorem find_order_save (now : Int) (d : OrderData) (code : String) (s : Store) :
    find_order code (save_order now d s)
      = if d.code = code then
          match find_order d.code s with
          | some o => some (update_order_fields o d)
          | none => some (new_order now d)
        else find_order code s := by
  rw [save_order]
  cases h : find_order d.code s with
  | none =>
    rw [find_order, List.find?_append]
    by_cases hc : d.code = code
    · subst hc
      simp only [find_order] at h
      simp [h, new_order]
    · by_cases hfound : (s.find? fun o => decide (o.code = code)) |>.isSome
      · obtain ⟨o, ho⟩ := Option.isSome_iff_exists.mp hfound
        simp [find_order, ho, hc]
      · have hnone : (s.find? fun o => decide (o.code = code)) = none :=
          Option.not_isSome_iff_eq_none.mp hfound
        simp [find_order, hnone, hc, new_order]
  | some o =>
    rw [find_order_updateFirst code d.code (fun o => update_order_fields o d)
      (fun o ho => by simp [update_order_fields, ho]) s]
    by_cases hc : d.code = code
    · subst hc
      simp [h]
    · simp [hc]

theorem is_order_notified_save (now : Int) (d : OrderData) (code : String) (s : Store) :
    is_order_notified code (save_order now d s) = is_order_notified code s := by
  rw [is_order_notified, find_order_save]
  by_cases hc : d.code = code
  · subst hc
    cases h : find_order d.code s with
    | none => simp [is_order_notified, h, new_order]
    | some o => simp [is_order_notified, h, update_order_fields]
  · simp [hc, is_order_notified]

theorem find_order_save_isSome (now : Int) (d : OrderData) (s : Store) :
    (find_order d.code (save_order now d s)).isSome := by
  rw [find_order_save]
  cases h : find_order d.code s <;> simp

theorem is_order_notified_mark_ne (c code : String) (now : Int) (s : Store)
    (h : ¬(c = code)) :
    is_order_notified code (mark_as_notified c now s) = is_order_notified code s := by
  rw [is_order_notified, mark_as_notified,
    find_order_updateFirst code c (fun o => { o with notified_at := some now })
      (fun o _ => rfl) s]
  simp [h, is_order_notified]

theorem is_order_notified_mark_self (code : String) (now : Int) (s : Store)
    (h : (find_order code s).isSome) :
    is_order_notified code (mark_as_notified code now s) = true := by
  obtain ⟨o, ho⟩ := Option.isSome_iff_exists.mp h
  rw [is_order_notified, mark_as_notified,
    find_order_updateFirst code code (fun o => { o with notified_at := some now })
      (fun o _ => rfl) s]
  simp [ho]

theorem get_full_order_info_code (order : RemoteOrder) (env : OrderEnv) (info : OrderInfo)
    (h : get_full_order_info order env = some info) : info.code = order.attributes.code := by
  rw [get_full_order_info] at h
  cases henv : env.itemsCall with
  | error e => rw [henv] at h; exact absurd h (by simp)
  | ok items_data =>
    rw [henv] at h
    simp only [Option.some.injEq] at h
    rw [← h]

theorem count_code_cons (code : String) (i : OrderInfo) (l : List OrderInfo) :
    count_code code (i :: l) = (if i.code = code then 1 else 0) + count_code code l := by
  by_cases h : i.code = code <;> simp [count_code, h, Nat.add_comm]

theorem sync_loop_count (code : String) (orders : List (RemoteOrder × OrderEnv))
    (now : Int) (s : Store) :
    count_code code (sync_loop orders now s).1
        + (if is_order_notified code (sync_loop orders now s).2 then 0 else 1)
      ≤ (if is_order_notified code s then 0 else 1) := by
  induction orders generalizing s with
  | nil => simp [sync_loop, count_code]
  | cons oe rest ih =>
    obtain ⟨order, env⟩ := oe
    by_cases hn : is_order_notified order.attributes.code s
    · simp only [sync_loop, hn, if_true]
      exact ih s
    · simp only [sync_loop]
      rw [if_neg hn]
      cases hinfo : get_full_order_info order env with
      | none =>
        exact ih s
      | some info =>
        dsimp only
        have hcode_info : info.code = order.attributes.code :=
          get_full_order_info_code _ _ _ hinfo
        have hsome : (find_order order.attributes.code
            (save_order now (to_order_data info) s)).isSome := by
          have h0 := find_order_save_isSome now (to_order_data info) s
          have hdc : (to_order_data info).code = order.attributes.code := by
            rw [show (to_order_data info).code = info.code from rfl, hcode_info]
          rw [hdc] at h0
          exact h0
        by_cases hc : code = order.attributes.code
        · have h2 : is_order_notified code
              (mark_as_notified order.attributes.code now
                (save_order now (to_order_data info) s)) = true := by
            rw [hc]
            exact is_order_notified_mark_self _ _ _ hsome
          have hihs := ih (mark_as_notified order.attributes.code now
            (save_order now (to_order_data info) s))
          rw [h2, if_pos rfl] at hihs
          have hns : ¬(is_order_notified code s = true) := by
            rw [hc]; exact hn
          rw [if_neg hns]
          by_cases hcomp : is_completed_status order.attributes.status order.attributes.state
          · rw [if_pos hcomp]
            omega
          · rw [if_neg hcomp, count_code_cons]
            have hic : info.code = code := by rw [hcode_info]; exact hc.symm
            rw [if_pos hic]
            omega
        · have h2 : is_order_notified code
              (mark_as_notified order.attributes.code now
                (save_order now (to_order_data info) s)) = is_order_notified code s := by
            rw [is_order_notified_mark_ne _ _ _ _ (fun hh => hc hh.symm),
              is_order_notified_save]
          have hihs := ih (mark_as_notified order.attributes.code now
            (save_order now (to_order_data info) s))
          rw [h2] at hihs
          by_cases hcomp : is_completed_status order.attributes.status order.attributes.state
          · rw [if_pos hcomp]
            exact hihs
          · rw [if_neg hcomp, count_code_cons]
            have hne : ¬(info.code = code) := by
              rw [hcode_info]
              exact fun hh => hc hh.symm
            rw [if_neg hne]
            omega

theorem run_sync_passes_count (code : String)
    (passes : List (Except Unit (List (RemoteOrder × OrderEnv)) × Int)) (s : Store) :
    note_count code (run_sync_passes passes s).1
        + (if is_order_notified code (run_sync_passes passes s).2 then 0 else 1)
      ≤ (if is_order_notified code s then 0 else 1) := by
  induction passes generalizing s with
  | nil => simp [run_sync_passes, note_count]
  | cons p ps ih =>
    obtain ⟨listing, now⟩ := p
    cases listing with
    | error e =>
      simp only [run_sync_passes, get_new_orders, note_count, List.map_cons, List.sum_cons]
      have := ih s
      simp only [note_count] at this
      simpa [count_code] using this
    | ok orders =>
      simp only [run_sync_passes, get_new_orders, note_count, List.map_cons, List.sum_cons]
      have h1 := sync_loop_count code orders now s
      have h2 := ih (sync_loop orders now s).2
      simp only [note_count] at h2
      by_cases b1 : is_order_notified code s <;>
        by_cases b2 : is_order_notified code (sync_loop orders now s).2 <;>
        by_cases b3 : is_order_notified code
          (run_sync_passes ps (sync_loop orders now s).2).2 <;>
        simp only [b1, b2, b3, if_true, if_false] at h1 h2 ⊢ <;>
        omega

/-- C1: for every order code, across any number of sync passes, at most one
notification is ever produced; in particular, once the stored record for the
code has a non-null `notified_at`, no later pass ever adds an order with that
code to the returned batch, regardless of remote status. -/
theorem c1_at_most_one_notification_per_code
    (passes : List (Except Unit (List (RemoteOrder × OrderEnv)) × Int))
    (s : Store) (code : String) :
    note_count code (run_sync_passes passes s).1
      ≤ if is_order_notified code s then 0 else 1 := by
  have h := run_sync_passes_count code passes s
  by_cases b1 : is_order_notified code s <;>
    by_cases b2 : is_order_notified code (run_sync_passes passes s).2 <;>
    simp only [b1, b2, if_true, if_false] at h ⊢ <;> omega

/-- C2 (code_bug): because `create_waybill` passes the keyword `order_code`
to `change_order_status`, whose signature has no such parameter, the call
raises `TypeError` unconditionally and the catch-all `except` returns the
failure value `False` — for every environment, every order id, every space
count and every store, including the case the claim describes (remote label
simply not yet ready).  The claimed success-with-null-URL result is never
produced. -/
theorem c2_create_waybill_always_fails (env : WaybillEnv) (order_id : String)
    (spaces : Nat) (s : Store) :
    create_waybill env order_id spaces s = (WaybillResult.failed, s) :=
  rfl

/-- C3 counterexample: a store whose record for code `100045` is already
notified and still has status `APPROVED_BY_BANK`; a pass observes the same
order with remote status `ACCEPTED_BY_MERCHANT`, yet the pass returns the
store byte-for-byte unchanged — the stored status is NOT refreshed, refuting
the claim that stored fields are still updated for already-notified codes. -/
theorem c3_counterexample :
    sampleRemote.attributes.status = "ACCEPTED_BY_MERCHANT"
      ∧ sampleStored.code = sampleRemote.attributes.code
      ∧ sampleStored.notified_at.isSome = true
      ∧ sampleStored.status = "APPROVED_BY_BANK"
      ∧ get_new_orders (Except.ok [(sampleRemote, sampleEnv)]) 5 [sampleStored]
          = ([], [sampleStored]) :=
  ⟨rfl, rfl, rfl, rfl, rfl⟩

/-- C3 amended: a pass observing a remote order whose code is already
notified does not add it to the batch and performs no store write for it at
all — the observation is skipped entirely, as if the order were absent from
the listing (no field refresh happens). -/
theorem c3_notified_order_skipped (order : RemoteOrder) (env : OrderEnv)
    (rest : List (RemoteOrder × OrderEnv)) (now : Int) (s : Store)
    (h : is_order_notified order.attributes.code s = true) :
    get_new_orders (Except.ok ((order, env) :: rest)) now s
      = get_new_orders (Except.ok rest) now s := by
  simp [get_new_orders, sync_loop, h]

/-- Witness for the amended C3 at a concrete store and listing. -/
theorem c3_notified_order_skipped_witness :
    is_order_notified sampleRemote.attributes.code [sampleStored] = true
      ∧ get_new_orders (Except.ok [(sampleRemote, sampleEnv)]) 5 [sampleStored]
          = get_new_orders (Except.ok []) 5 [sampleStored] :=
  ⟨rfl, c3_notified_order_skipped sampleRemote sampleEnv [] 5 [sampleStored] rfl⟩

/-- C4: a failing remote accept call makes `accept_order` return `false` with
the store unchanged; a successful call returns `true` and rewrites the stored
record's status to `ACCEPTED_BY_MERCHANT`. -/
theorem c4_accept_order_spec (order_id order_code : String) (s : Store) (o : Order) :
    accept_order (Except.error ()) order_id order_code s = (false, s)
      ∧ (accept_order (Except.ok ()) order_id order_code s).1 = true
      ∧ (find_order order_code s = some o →
          find_order order_code (accept_order (Except.ok ()) order_id order_code s).2
            = some { o with status := "ACCEPTED_BY_MERCHANT" }) := by
  refine ⟨rfl, rfl, fun h => ?_⟩
  show find_order order_code (update_order_status order_code "ACCEPTED_BY_MERCHANT" s) = _
  rw [update_order_status, find_order_updateFirst order_code order_code
    (fun o => { o with status := "ACCEPTED_BY_MERCHANT" }) (fun o _ => rfl) s]
  simp [h]

/-- Witness for C4 at a concrete store whose record exists. -/
theorem c4_accept_order_spec_witness :
    accept_order (Except.error ()) "MTAwMDQ1" "100045" [sampleStored] = (false, [sampleStored])
      ∧ (accept_order (Except.ok ()) "MTAwMDQ1" "100045" [sampleStored]).1 = true
      ∧ find_order "100045"
            (accept_order (Except.ok ()) "MTAwMDQ1" "100045" [sampleStored]).2
          = some { sampleStored with status := "ACCEPTED_BY_MERCHANT" } := by
  have h := c4_accept_order_spec "MTAwMDQ1" "100045" [sampleStored] sampleStored
  exact ⟨h.1, h.2.1, h.2.2 rfl⟩

/-- C5: the cancel operation (spec-modelled: absent from `src/`, called by the
bot layer) takes a reason from the fixed three-element set and transitions the
remote order's status to `CANCELLED`. -/
theorem c5_cancel_transitions_to_cancelled (order_id order_code : String)
    (reason : CancelReason) (remote : RemoteAttrs) :
    (cancel_order order_id order_code reason remote).status = "CANCELLED"
      ∧ (cancel_reason_code reason = "BUYER_CANCELLATION_BY_MERCHANT"
          ∨ cancel_reason_code reason = "BUYER_NOT_REACHABLE"
          ∨ cancel_reason_code reason = "MERCHANT_OUT_OF_STOCK") := by
  refine ⟨rfl, ?_⟩
  cases reason
  · exact Or.inl rfl
  · exact Or.inr (Or.inl rfl)
  · exact Or.inr (Or.inr rfl)

/-- C6: with both creation-date bounds omitted, the listing request carries
exactly `now - 14 days` (in ms) as lower bound and `now` as upper bound. -/
theorem c6_default_creation_window (status state : Option (List String))
    (page_number page_size : Nat) (now : Int) :
    (get_orders_params status state page_number page_size none none now).creation_date_from
        = now - 14 * 24 * 60 * 60 * 1000
      ∧ (get_orders_params status state page_number page_size none none now).creation_date_to
          = now :=
  ⟨rfl, rfl⟩

/-- C7: storing any line-item list through the `Order.items` setter (JSON
serialization) and reading it back through the getter (JSON deserialization)
yields a list field-for-field equal to the original. -/
theorem c7_items_round_trip (o : Order) (value : List LineItem) :
    (o.setItems value).items = value := by
  by_cases h : value = []
  · subst h
    simp [Order.setItems, Order.items]
  · simp [Order.setItems, h, Order.items, json_items_roundtrip]

/-- C8 counterexample: `save_order` on an existing record with a supplied
EMPTY item list leaves the stored (non-empty) items unchanged instead of
overwriting them, refuting "last-write-wins ... including an empty item
list". -/
theorem c8_counterexample :
    sampleData.items = []
      ∧ sampleData.code = sampleStored.code
      ∧ sampleStored.items = [sampleItem]
      ∧ save_order 0 sampleData [sampleStored] = [sampleStored] := by
  refine ⟨rfl, rfl, ?_, rfl⟩
  have hj : sampleStored.items_json = some (json_dumps_items [sampleItem]) := rfl
  simp [Order.items, hj, json_items_roundtrip]

/-- C8 amended: `save_order` on an existing record overwrites every scalar
field with the newly supplied value and leaves `notified_at` and `created_at`
unchanged, but the item list is overwritten only when the supplied list is
non-empty (an empty list leaves the old blob in place); no record is deleted
and records with other codes are untouched. -/
theorem c8_save_order_existing (now : Int) (d : OrderData) (s : Store) (o : Order)
    (h : find_order d.code s = some o) :
    find_order d.code (save_order now d s) = some (update_order_fields o d)
      ∧ (update_order_fields o d).id = d.id
      ∧ (update_order_fields o d).status = d.status
      ∧ (update_order_fields o d).state = d.state
      ∧ (update_order_fields o d).total_price = d.total_price
      ∧ (update_order_fields o d).customer_name = d.customer_name
      ∧ (update_order_fields o d).customer_phone = d.customer_phone
      ∧ (update_order_fields o d).delivery_mode = d.delivery_mode
      ∧ (update_order_fields o d).delivery_address = d.delivery_address
      ∧ (update_order_fields o d).warehouse_id = d.warehouse_id
      ∧ (update_order_fields o d).warehouse_name = d.warehouse_name
      ∧ (update_order_fields o d).warehouse_address = d.warehouse_address
      ∧ (update_order_fields o d).planned_delivery_date = d.planned_delivery_date
      ∧ (update_order_fields o d).is_kaspi_delivery = d.is_kaspi_delivery
      ∧ (update_order_fields o d).is_express = d.is_express
      ∧ (update_order_fields o d).waybill_url = some d.waybill_url
      ∧ (update_order_fields o d).notified_at = o.notified_at
      ∧ (update_order_fields o d).created_at = o.created_at
      ∧ (update_order_fields o d).items_json
          = (if d.items = [] then o.items_json else some (json_dumps_items d.items))
      ∧ (save_order now d s).length = s.length
      ∧ (∀ c, ¬(c = d.code) → find_order c (save_order now d s) = find_order c s) := by
  refine ⟨?_, rfl, rfl, rfl, rfl, rfl, rfl, rfl, rfl, rfl, rfl, rfl, rfl, rfl, rfl, rfl,
    rfl, rfl, rfl, ?_, ?_⟩
  · rw [find_order_save]
    simp [h]
  · rw [save_order, h, updateFirst_length]
  · intro c hc
    rw [find_order_save, if_neg (fun hh => hc hh.symm)]

/-- Witness for the amended C8 at a concrete store. -/
theorem c8_save_order_existing_witness :
    find_order sampleData.code (save_order 0 sampleData [sampleStored])
        = some (update_order_fields sampleStored sampleData)
      ∧ (update_order_fields sampleStored sampleData).notified_at
          = sampleStored.notified_at := by
  have h := c8_save_order_existing 0 sampleData [sampleStored] sampleStored rfl
  exact ⟨h.1, h.2.2.2.2.2.2.2.2.2.2.2.2.2.2.2.2.1⟩

/-- C9: a product-description request failing with HTTP 404 yields the
empty-attributes payload instead of an error, so the caller always receives a
(possibly empty) description. -/
theorem c9_product_description_404 :
    get_product_description (Except.error (HttpFailure.statusCode 404))
      = empty_product_response :=
  rfl

/-- C10: `get_new_orders` is total at its interface: a failing top-level
listing call yields the empty batch with the store untouched, which is the
very same result as a pass whose listing succeeded with no orders. -/
theorem c10_get_new_orders_total_on_failure (now : Int) (s : Store) :
    get_new_orders (Except.error ()) now s = ([], s)
      ∧ get_new_orders (Except.error ()) now s = get_new_orders (Except.ok []) now s :=
  ⟨rfl, rfl⟩

end Kaspi
